import Mathlib

/-!
Shallow embedding of the MediReach appointment-booking backend.

Document-store variant: the Express routes in
`mongodb-implementation/routes/auth.js` (register, login, list/create
appointments, PATCH /:id/status) together with the Mongoose schema methods
`appointmentSchema.methods.complete` and
`doctorProfileSchema.methods.updateRating`.

Relational variant: the SQL schema in `src/lib/supabase.ts` — the `reviews`
table (UNIQUE appointment_id, rating CHECK), the RLS insert policy
"Patients can create reviews for own appointments", and the
`update_doctor_rating` trigger function.

Ids (Mongo ObjectIds / Postgres uuids) are modelled as naturals; status and
role values are kept as the strings the code compares against; ratings are
rationals (JS numbers / Postgres decimals restricted to the exact arithmetic
the claims exercise).
-/

namespace MediReach

/-- A user record (Mongo `User` model / SQL `profiles` row): the fields the
embedded routes read. -/
structure User where
  id : Nat
  email : String
  passwordHash : String
  fullName : String
  role : String
deriving Repr, DecidableEq

/-- A doctor profile (Mongo `DoctorProfile` model / SQL `doctor_profiles`
row): the fields the embedded routes and methods read or write. -/
structure DoctorProfile where
  id : Nat
  userId : Nat
  rating : ℚ
  totalConsultations : Nat
deriving Repr, DecidableEq

/-- An appointment (Mongo `Appointment` model / SQL `appointments` row). -/
structure Appointment where
  id : Nat
  patientId : Nat
  doctorId : Nat
  appointmentDate : String
  appointmentTime : String
  status : String
  reason : String
deriving Repr, DecidableEq

/-- A review (SQL `reviews` row; the Mongo `updateRating` method reads the
same `doctorId` and `rating` fields from its `Review` collection). -/
structure Review where
  id : Nat
  appointmentId : Nat
  patientId : Nat
  doctorId : Nat
  rating : Int
deriving Repr, DecidableEq

/-- A notification record (Mongo `Notification` model / SQL `notifications`
row). -/
structure Notification where
  userId : Nat
  title : String
  message : String
  type : String
  relatedId : Nat
deriving Repr, DecidableEq

/-- The persistent store: one list per collection/table the embedded code
touches. -/
structure DB where
  users : List User
  doctorProfiles : List DoctorProfile
  appointments : List Appointment
  reviews : List Review
  notifications : List Notification
deriving Repr, DecidableEq

/-- Outcome of a route handler: the HTTP responses the embedded routes
produce.  Success constructors carry the updated store; error constructors
carry only the response message, because the handlers return before writing
anything. -/
inductive HttpResult where
  | ok (db : DB)
  | created (db : DB)
  | badRequest (message : String)
  | forbidden (message : String)
  | notFound (message : String)
  | serverError (message : String)
deriving Repr, DecidableEq

/-- The status values the PATCH route's `includes` check accepts
(`routes/auth.js` line 216): note `pending` is absent. -/
def routeAcceptedStatuses : List String :=
  ["confirmed", "cancelled", "completed", "rescheduled"]

/-- The five-value enum of `appointmentSchema.status`. -/
def appointmentStatusEnum : List String :=
  ["pending", "confirmed", "completed", "cancelled", "rescheduled"]

/-- Apply `f` to the appointment with the given id (Mongoose `save` after a
field assignment on the loaded document). -/
def updateAppt (l : List Appointment) (apptId : Nat)
    (f : Appointment → Appointment) : List Appointment :=
  l.map (fun a => if a.id == apptId then f a else a)

/-- `PATCH /api/appointments/:id/status` (`routes/auth.js` lines 212-265):
validate the requested status against the four-element list, load the
appointment, reject a doctor caller whose profile does not own it, then
assign the status, save, and create one notification for the patient. -/
def updateStatus (db : DB) (caller : User) (apptId : Nat)
    (status : String) : HttpResult :=
  if ¬ routeAcceptedStatuses.contains status then
    .badRequest "Invalid status"
  else
    match db.appointments.find? (fun a => a.id == apptId) with
    | none => .notFound "Appointment not found"
    | some appointment =>
      let authFailed : Bool :=
        caller.role == "doctor" &&
          (match db.doctorProfiles.find? (fun dp => dp.userId == caller.id) with
           | none => true
           | some doctorProfile => ! (appointment.doctorId == doctorProfile.id))
      if authFailed then
        .forbidden "Not authorized"
      else
        let db1 := { db with
          appointments := updateAppt db.appointments apptId
            (fun a => { a with status := status }) }
        .ok { db1 with
          notifications := db1.notifications ++
            [{ userId := appointment.patientId,
               title := "Appointment Status Updated",
               message := "Your appointment status is now: " ++ status,
               type := "appointment",
               relatedId := appointment.id }] }

/-- `appointmentSchema.methods.complete` (`models/Appointment`, part_001
lines 179-192): throw unless the document's status is `confirmed`, otherwise
set it to `completed`, save, and `$inc` the owning doctor's
`totalConsultations` by one. -/
def Appointment.complete (db : DB) (a : Appointment) : Except String DB :=
  if ¬ a.status == "confirmed" then
    .error "Only confirmed appointments can be completed"
  else
    let db1 := { db with
      appointments := updateAppt db.appointments a.id
        (fun x => { x with status := "completed" }) }
    .ok { db1 with
      doctorProfiles := db1.doctorProfiles.map (fun dp =>
        if dp.id == a.doctorId then
          { dp with totalConsultations := dp.totalConsultations + 1 }
        else dp) }

/-- `doctorProfileSchema.methods.updateRating` (`models/DoctorProfile`,
part_001 lines 86-98): read all reviews referencing this profile; with zero
reviews store the freshly submitted rating, otherwise store
`sum of ratings / number of reviews` — no rounding — then save. -/
def updateRating (db : DB) (dpId : Nat) (newRating : ℚ) : DB :=
  let reviews := db.reviews.filter (fun r => r.doctorId == dpId)
  let newValue : ℚ :=
    if reviews.length == 0 then newRating
    else ((reviews.map (fun r => (r.rating : ℚ))).sum) / (reviews.length : ℚ)
  { db with
    doctorProfiles := db.doctorProfiles.map (fun dp =>
      if dp.id == dpId then { dp with rating := newValue } else dp) }

/-- Rounding of a nonnegative rational to 2 decimal places, as the cast
`AVG(rating)::decimal(3,2)` performs it in Postgres (round half away from
zero; our ratings are nonnegative so half-up coincides). -/
def roundTo2 (q : ℚ) : ℚ := ((⌊q * 100 + 1 / 2⌋ : ℤ) : ℚ) / 100

/-- The trigger function `update_doctor_rating` (`supabase.ts` lines
531-543): set the doctor's stored rating to the average of the ratings of
all reviews referencing the doctor, cast to `decimal(3,2)`.  The trigger
fires AFTER INSERT, so the review set it averages is nonempty; theorems
about it carry that hypothesis. -/
def update_doctor_rating (db : DB) (doctorId : Nat) : DB :=
  let rs := db.reviews.filter (fun r => r.doctorId == doctorId)
  let avg := roundTo2 (((rs.map (fun r => (r.rating : ℚ))).sum) / (rs.length : ℚ))
  { db with
    doctorProfiles := db.doctorProfiles.map (fun dp =>
      if dp.id == doctorId then { dp with rating := avg } else dp) }

/-- An INSERT into `reviews` on behalf of the authenticated user `callerId`
(`supabase.ts`): it commits only if the `appointment_id UNIQUE` constraint
holds, the `rating BETWEEN 1 AND 5` CHECK holds, and the RLS policy
"Patients can create reviews for own appointments" passes (`patient_id =
auth.uid()` and the appointment is the caller's and `completed`); on success
the AFTER INSERT trigger recomputes the doctor's rating. -/
def insertReview (db : DB) (callerId : Nat) (r : Review) : Option DB :=
  if db.reviews.any (fun r0 => r0.appointmentId == r.appointmentId) then
    none
  else if ¬ (1 ≤ r.rating ∧ r.rating ≤ 5) then
    none
  else if ¬ (r.patientId == callerId &&
      db.appointments.any (fun a =>
        a.id == r.appointmentId && a.patientId == callerId &&
          a.status == "completed")) then
    none
  else
    some (update_doctor_rating
      { db with reviews := db.reviews ++ [r] } r.doctorId)

/-- Outcome of `GET /api/appointments`: the ok case carries the scoped list. -/
inductive ListResult where
  | ok (appointments : List Appointment)
  | notFound (message : String)
deriving Repr, DecidableEq

/-- `GET /api/appointments` (`routes/auth.js` lines 134-171): a patient
caller is scoped to `patientId = caller`, a doctor caller to the
appointments of their doctor profile (404 when the profile is missing); any
other role gets the unscoped query. -/
def listAppointments (db : DB) (caller : User) : ListResult :=
  if caller.role == "patient" then
    .ok (db.appointments.filter (fun a => a.patientId == caller.id))
  else if caller.role == "doctor" then
    match db.doctorProfiles.find? (fun dp => dp.userId == caller.id) with
    | none => .notFound "Doctor profile not found"
    | some doctorProfile =>
      .ok (db.appointments.filter (fun a => a.doctorId == doctorProfile.id))
  else
    .ok db.appointments

/-- `POST /api/auth/register` (`routes/auth.js` lines 6-45): reject when any
of the four body fields is missing (falsy — modelled as the empty string),
then reject a duplicate email, otherwise create the user.  The Mongo
ObjectId of the new user is modelled as the next list index; no embedded
behaviour depends on it. -/
def register (db : DB) (email password fullName role : String) : HttpResult :=
  if email = "" ∨ password = "" ∨ fullName = "" ∨ role = "" then
    .badRequest "Please provide all required fields"
  else if db.users.any (fun u => u.email == email) then
    .badRequest "Email already registered"
  else
    .created { db with
      users := db.users ++
        [{ id := db.users.length, email := email, passwordHash := password,
           fullName := fullName, role := role }] }

/-- The anchored pattern `([0-1]?[0-9]|2[0-3]):[0-5][0-9]` that
`appointmentSchema.appointmentTime` must match. -/
def validTime (s : String) : Bool :=
  match s.data with
  | [h, ':', m1, m2] =>
      h.isDigit && (decide ('0' ≤ m1) && decide (m1 ≤ '5')) && m2.isDigit
  | [h1, h2, ':', m1, m2] =>
      ((h1 == '0' || h1 == '1') && h2.isDigit ||
        h1 == '2' && (decide ('0' ≤ h2) && decide (h2 ≤ '3'))) &&
        (decide ('0' ≤ m1) && decide (m1 ≤ '5')) && m2.isDigit
  | _ => false

/-- `POST /api/appointments` (`routes/auth.js` lines 173-210), the handler
behind the patient-role middleware: `Appointment.create` applies the schema
validators (required date and reason, the time pattern) and a failure is
caught as a 500; otherwise the appointment is stored with status `pending`,
and a notification goes to the doctor's user only `if (doctor)` — when
`DoctorProfile.findById(doctorId)` resolves.  The new appointment's ObjectId
is modelled as the next list index. -/
def createAppointment (db : DB) (caller : User) (doctorId : Nat)
    (appointmentDate appointmentTime reason : String) : HttpResult :=
  if appointmentDate = "" ∨ validTime appointmentTime = false ∨ reason = "" then
    .serverError "Appointment validation failed"
  else
    let appt : Appointment :=
      { id := db.appointments.length, patientId := caller.id,
        doctorId := doctorId, appointmentDate := appointmentDate,
        appointmentTime := appointmentTime, status := "pending",
        reason := reason }
    let db1 := { db with appointments := db.appointments ++ [appt] }
    match db.doctorProfiles.find? (fun dp => dp.id == doctorId) with
    | some doctor =>
      .created { db1 with
        notifications := db1.notifications ++
          [{ userId := doctor.userId, title := "New Appointment Request",
             message := caller.fullName ++ " has requested an appointment",
             type := "appointment", relatedId := appt.id }] }
    | none => .created db1

/-- The `reviews` invariant of interest: no two stored reviews share an
`appointment_id` (the UNIQUE constraint). -/
def atMostOneReviewPerAppointment (db : DB) : Prop :=
  db.reviews.Pairwise (fun r1 r2 => r1.appointmentId ≠ r2.appointmentId)

/-- States of the relational store reachable under the embedded schema: any
initial state with an empty `reviews` table, review INSERTs that commit
(`insertReview`), and arbitrary changes to the other tables.  The schema
grants no UPDATE or DELETE on `reviews`, so no step rewrites existing
reviews. -/
inductive Reachable : DB → Prop where
  | init (users : List User) (dps : List DoctorProfile)
      (appts : List Appointment) (notifs : List Notification) :
      Reachable
        { users := users, doctorProfiles := dps, appointments := appts,
          reviews := [], notifications := notifs }
  | review (db db' : DB) (callerId : Nat) (r : Review) :
      Reachable db → insertReview db callerId r = some db' → Reachable db'
  | other (db : DB) (users : List User) (dps : List DoctorProfile)
      (appts : List Appointment) (notifs : List Notification) :
      Reachable db →
      Reachable
        { db with users := users, doctorProfiles := dps,
                  appointments := appts, notifications := notifs }

/-! Concrete records used by the closed evaluation theorems and witnesses. -/

/-- A patient user. -/
def exPatient : User :=
  { id := 1, email := "pat@example.com", passwordHash := "h",
    fullName := "Pat", role := "patient" }

/-- A second, distinct patient user. -/
def exPatient2 : User :=
  { id := 3, email := "pat2@example.com", passwordHash := "h",
    fullName := "Pam", role := "patient" }

/-- The user behind the doctor profile. -/
def exDoctorUser : User :=
  { id := 2, email := "doc@example.com", passwordHash := "h",
    fullName := "Doc", role := "doctor" }

/-- The doctor profile owned by `exDoctorUser`. -/
def exDoctorProfile : DoctorProfile :=
  { id := 20, userId := 2, rating := 0, totalConsultations := 0 }

/-- A pending appointment of `exPatient` with `exDoctorProfile`. -/
def exPendingAppt : Appointment :=
  { id := 10, patientId := 1, doctorId := 20,
    appointmentDate := "2025-01-01", appointmentTime := "09:00",
    status := "pending", reason := "checkup" }

/-- A confirmed appointment of `exPatient` with `exDoctorProfile`. -/
def exConfirmedAppt : Appointment :=
  { exPendingAppt with status := "confirmed" }

/-- A store holding the two users, the doctor profile, and the pending
appointment. -/
def exDB : DB :=
  { users := [exPatient, exDoctorUser], doctorProfiles := [exDoctorProfile],
    appointments := [exPendingAppt], reviews := [], notifications := [] }

/-- `exDB` with the appointment already confirmed. -/
def exConfirmedDB : DB :=
  { exDB with appointments := [exConfirmedAppt] }

/-- The notification the PATCH route writes for a `completed` update of the
example appointment. -/
def exNotifCompleted : Notification :=
  { userId := 1, title := "Appointment Status Updated",
    message := "Your appointment status is now: completed",
    type := "appointment", relatedId := 10 }

/-- Three reviews of ratings 4, 5, 5 for `exDoctorProfile`. -/
def exReviews455 : List Review :=
  [{ id := 1, appointmentId := 10, patientId := 1, doctorId := 20, rating := 4 },
   { id := 2, appointmentId := 11, patientId := 1, doctorId := 20, rating := 5 },
   { id := 3, appointmentId := 12, patientId := 1, doctorId := 20, rating := 5 }]

/-- `exDB` with the three reviews 4, 5, 5 stored. -/
def exRatingDB : DB :=
  { exDB with reviews := exReviews455 }

/-- The store produced by `Appointment.complete` on the confirmed example:
status `completed` and the doctor's consultation counter at 1. -/
def exCompletedDB : DB :=
  { exConfirmedDB with
    appointments := [{ exConfirmedAppt with status := "completed" }],
    doctorProfiles := [{ exDoctorProfile with totalConsultations := 1 }] }

/-- A second doctor user, distinct from `exDoctorUser`. -/
def exDoctorUser2 : User :=
  { id := 4, email := "doc2@example.com", passwordHash := "h",
    fullName := "Dee", role := "doctor" }

/-- The doctor profile owned by `exDoctorUser2`, distinct from
`exDoctorProfile`. -/
def exDoctorProfile2 : DoctorProfile :=
  { id := 21, userId := 4, rating := 0, totalConsultations := 0 }

/-- `exDB` extended with the second doctor's user and profile. -/
def exTwoDoctorDB : DB :=
  { exDB with
    users := [exPatient, exDoctorUser, exDoctorUser2],
    doctorProfiles := [exDoctorProfile, exDoctorProfile2] }

/-- A candidate review for the pending example appointment. -/
def exReviewForPending : Review :=
  { id := 9, appointmentId := 10, patientId := 1, doctorId := 20, rating := 5 }

/-! ## Theorems -/

/-- Helper: `Appointment.complete` succeeds exactly from status `confirmed`,
and the successful store increments `totalConsultations` of the owning
doctor's profile by one while setting the appointment's status. -/
theorem complete_characterization (db : DB) (a : Appointment) :
    ((∃ db', Appointment.complete db a = .ok db') ↔ a.status = "confirmed") ∧
    (∀ db', Appointment.complete db a = .ok db' →
      db'.doctorProfiles = db.doctorProfiles.map (fun dp =>
        if dp.id == a.doctorId then
          { dp with totalConsultations := dp.totalConsultations + 1 }
        else dp)) := by
  unfold Appointment.complete
  by_cases h : a.status = "confirmed"
  · rw [if_neg (by simp [h])]
    constructor
    · constructor
      · intro _
        exact h
      · intro _
        exact ⟨_, rfl⟩
    · intro db' heq
      cases heq
      rfl
  · rw [if_pos (by simp [h])]
    constructor
    · constructor
      · rintro ⟨db', heq⟩
        cases heq
      · intro hc
        exact absurd hc h
    · intro db' heq
      cases heq

/-- Claim C1 (code bug): the PATCH route accepts `completed` for the pending
example appointment and returns success with the status overwritten — the
route performs no transition check — while the schema method
`Appointment.complete` succeeds exactly from status `confirmed`. -/
theorem c1_route_completes_pending_but_model_requires_confirmed :
    updateStatus exDB exPatient 10 "completed" =
      .ok { exDB with
            appointments := [{ exPendingAppt with status := "completed" }],
            notifications := [exNotifCompleted] } ∧
    ∀ db a, (∃ db', Appointment.complete db a = .ok db') ↔
      a.status = "confirmed" := by
  exact ⟨by decide, fun db a => (complete_characterization db a).1⟩

/-- Claim C3 (code bug): a successful PATCH to `completed` (doctor caller,
confirmed appointment) writes exactly one notification to the patient but
leaves `doctorProfiles` — hence `totalConsultations` — untouched; the
increment lives only in `Appointment.complete`, which the route never
calls. -/
theorem c3_route_success_leaves_consultation_counter :
    (updateStatus exConfirmedDB exDoctorUser 10 "completed" =
      .ok { exConfirmedDB with
            appointments := [{ exConfirmedAppt with status := "completed" }],
            notifications := [exNotifCompleted] }) ∧
    (∀ db a db', Appointment.complete db a = .ok db' →
      db'.doctorProfiles = db.doctorProfiles.map (fun dp =>
        if dp.id == a.doctorId then
          { dp with totalConsultations := dp.totalConsultations + 1 }
        else dp)) := by
  exact ⟨by decide, fun db a => (complete_characterization db a).2⟩

/-- Witness for C3's hypothesis-bearing conjunct, at the confirmed example
appointment. -/
theorem c3_route_success_leaves_consultation_counter_witness :
    exCompletedDB.doctorProfiles =
      exConfirmedDB.doctorProfiles.map (fun dp =>
        if dp.id == exConfirmedAppt.doctorId then
          { dp with totalConsultations := dp.totalConsultations + 1 }
        else dp) :=
  c3_route_success_leaves_consultation_counter.2 exConfirmedDB exConfirmedAppt
    exCompletedDB (by rfl)

/-- Claim C5, counterexample: `pending` is one of the five schema enum
values, yet the PATCH route's validation rejects it with 400
"Invalid status". -/
theorem c5_counterexample_pending_rejected :
    "pending" ∈ appointmentStatusEnum ∧
    updateStatus exDB exPatient 10 "pending" = .badRequest "Invalid status" :=
  ⟨by decide, by decide⟩

/-- Claim C5, amended: the PATCH route's input validation accepts exactly
the four values `confirmed`, `cancelled`, `completed`, `rescheduled`; every
other string — `pending` included — yields 400 "Invalid status" (an error
response carries no store, so the appointment is unchanged). -/
theorem c5_validation_accepts_exactly_four (db : DB) (caller : User)
    (apptId : Nat) (s : String) :
    updateStatus db caller apptId s = .badRequest "Invalid status" ↔
      s ∉ routeAcceptedStatuses := by
  unfold updateStatus
  split
  · simp_all
  · split <;> (try split) <;> simp_all <;> split <;> simp_all

/-- Claim C9: a register request carrying all four fields whose email is
already taken by a stored user gets 400 "Email already registered"; the
error response carries no store, so no user record is created. -/
theorem c9_duplicate_email_rejected (db : DB)
    (email password fullName role : String)
    (he : email ≠ "") (hp : password ≠ "") (hf : fullName ≠ "")
    (hr : role ≠ "") (hdup : ∃ u ∈ db.users, u.email = email) :
    register db email password fullName role =
      .badRequest "Email already registered" := by
  unfold register
  rw [if_neg (by simp [he, hp, hf, hr]), if_pos]
  simp only [List.any_eq_true]
  obtain ⟨u, hu, hue⟩ := hdup
  exact ⟨u, hu, by simp [hue]⟩

/-- Witness for C9 at a concrete duplicate of `exPatient`'s email. -/
theorem c9_duplicate_email_rejected_witness :
    register exDB "pat@example.com" "pw" "Other Person" "patient" =
      .badRequest "Email already registered" :=
  c9_duplicate_email_rejected exDB "pat@example.com" "pw" "Other Person"
    "patient" (by decide) (by decide) (by decide) (by decide)
    ⟨exPatient, by decide, by decide⟩

/-- Claim C4: past validation and lookup, the PATCH route answers 403
"Not authorized" exactly when the caller's role is `doctor` and the lookup
of the caller's doctor profile does not produce the appointment's doctor;
a patient caller is never ownership-checked and always reaches the write. -/
theorem c4_forbidden_exactly_for_unmatched_doctor (db : DB) (caller : User)
    (apptId : Nat) (s : String) (appt : Appointment)
    (hs : s ∈ routeAcceptedStatuses)
    (ha : db.appointments.find? (fun a => a.id == apptId) = some appt) :
    (updateStatus db caller apptId s = .forbidden "Not authorized" ↔
      caller.role = "doctor" ∧
        ∀ dp, db.doctorProfiles.find? (fun p => p.userId == caller.id) =
            some dp → appt.doctorId ≠ dp.id) ∧
    (caller.role = "patient" →
      ∃ db', updateStatus db caller apptId s = .ok db') := by
  unfold updateStatus
  rw [if_neg (by simp [hs]), ha]
  rcases hdp : db.doctorProfiles.find? (fun p => p.userId == caller.id)
    with _ | dp
  · simp only [hdp]
    by_cases hrole : caller.role = "doctor"
    · rw [if_pos (by simp [hrole])]
      constructor
      · constructor
        · intro _
          refine ⟨hrole, ?_⟩
          intro dp hdp2
          cases hdp2
        · intro _
          rfl
      · intro hpat
        rw [hpat] at hrole
        exact absurd hrole (by decide)
    · rw [if_neg (by simp [hrole])]
      constructor
      · constructor
        · intro heq
          cases heq
        · rintro ⟨hc, _⟩
          exact absurd hc hrole
      · intro _
        exact ⟨_, rfl⟩
  · simp only [hdp]
    by_cases hfail : caller.role = "doctor" ∧ appt.doctorId ≠ dp.id
    · rw [if_pos (by simp [hfail.1, hfail.2])]
      constructor
      · constructor
        · intro _
          refine ⟨hfail.1, ?_⟩
          intro dp2 hdp2
          cases hdp2
          exact hfail.2
        · intro _
          rfl
      · intro hpat
        rw [hpat] at hfail
        simp at hfail
    · rw [if_neg (by
        simp only [beq_iff_eq, Bool.and_eq_true, bne]
        intro hcon
        exact hfail (by simpa using hcon))]
      constructor
      · constructor
        · intro heq
          cases heq
        · rintro ⟨hc, hall⟩
          exact absurd ⟨hc, hall dp rfl⟩ hfail
      · intro _
        exact ⟨_, rfl⟩

/-- Witness for C4: the second patient, who does not own appointment 10,
still gets a successful write — the unmatched-doctor check is the only
authorization step. -/
theorem c4_forbidden_exactly_for_unmatched_doctor_witness :
    ∃ db', updateStatus exDB exPatient2 10 "confirmed" = .ok db' :=
  (c4_forbidden_exactly_for_unmatched_doctor exDB exPatient2 10 "confirmed"
    exPendingAppt (by decide) (by rfl)).2 rfl

/-- Claim C7: `GET /api/appointments` scopes by caller — a patient sees only
appointments with their own `patientId`, a doctor only those of their own
doctor profile, and callers with distinct identities (patients with distinct
ids, doctors with distinct profiles) never receive one another's
appointments. -/
theorem c7_listing_scoped_to_caller :
    (∀ db (p : User) l, p.role = "patient" → listAppointments db p = .ok l →
      ∀ a ∈ l, a.patientId = p.id) ∧
    (∀ db (d : User) l, d.role = "doctor" → listAppointments db d = .ok l →
      ∃ dp, db.doctorProfiles.find? (fun q => q.userId == d.id) = some dp ∧
        ∀ a ∈ l, a.doctorId = dp.id) ∧
    (∀ db (p1 p2 : User) l1, p1.role = "patient" → p2.role = "patient" →
      p1.id ≠ p2.id → listAppointments db p1 = .ok l1 →
      ∀ a ∈ l1, a.patientId ≠ p2.id) ∧
    (∀ db (d1 d2 : User) l1 dp1 dp2, d1.role = "doctor" →
      d2.role = "doctor" →
      db.doctorProfiles.find? (fun q => q.userId == d1.id) = some dp1 →
      db.doctorProfiles.find? (fun q => q.userId == d2.id) = some dp2 →
      dp1.id ≠ dp2.id → listAppointments db d1 = .ok l1 →
      ∀ a ∈ l1, a.doctorId ≠ dp2.id) := by
  have hpat : ∀ db (p : User) l, p.role = "patient" →
      listAppointments db p = .ok l → ∀ a ∈ l, a.patientId = p.id := by
    intro db p l hrole heq a ha
    unfold listAppointments at heq
    rw [if_pos (by simp [hrole])] at heq
    cases heq
    simpa using (List.mem_filter.mp ha).2
  have hdoc : ∀ db (d : User) l, d.role = "doctor" →
      listAppointments db d = .ok l →
      ∃ dp, db.doctorProfiles.find? (fun q => q.userId == d.id) = some dp ∧
        ∀ a ∈ l, a.doctorId = dp.id := by
    intro db d l hrole heq
    unfold listAppointments at heq
    rw [if_neg (by simp [hrole]), if_pos (by simp [hrole])] at heq
    rcases hdp : db.doctorProfiles.find? (fun q => q.userId == d.id)
      with _ | dp
    · rw [hdp] at heq
      cases heq
    · rw [hdp] at heq
      cases heq
      refine ⟨dp, hdp, ?_⟩
      intro a ha
      simpa using (List.mem_filter.mp ha).2
  refine ⟨hpat, hdoc, ?_, ?_⟩
  · intro db p1 p2 l1 h1 h2 hne heq a ha
    rw [hpat db p1 l1 h1 heq a ha]
    exact hne
  · intro db d1 d2 l1 dp1 dp2 h1 h2 hfind1 hfind2 hne heq a ha
    obtain ⟨dp, hdp, hall⟩ := hdoc db d1 l1 h1 heq
    rw [hfind1] at hdp
    cases hdp
    rw [hall a ha]
    exact hne

/-- Witness for C7 on the two-doctor store: the first patient's listing is
their own, invisible to the second patient, and the first doctor's listing
belongs to the first doctor's profile, not the second's. -/
theorem c7_listing_scoped_to_caller_witness :
    (∀ a ∈ [exPendingAppt], a.patientId = exPatient.id) ∧
    (∀ a ∈ [exPendingAppt], a.patientId ≠ exPatient2.id) ∧
    (∀ a ∈ [exPendingAppt], a.doctorId ≠ exDoctorProfile2.id) :=
  ⟨c7_listing_scoped_to_caller.1 exTwoDoctorDB exPatient [exPendingAppt]
      (by rfl) (by decide),
   c7_listing_scoped_to_caller.2.2.1 exTwoDoctorDB exPatient exPatient2
      [exPendingAppt] (by rfl) (by rfl) (by decide) (by decide),
   c7_listing_scoped_to_caller.2.2.2 exTwoDoctorDB exDoctorUser exDoctorUser2
      [exPendingAppt] exDoctorProfile exDoctorProfile2 (by rfl) (by rfl)
      (by decide) (by decide) (by decide) (by decide)⟩

/-- Claim C10: a patient's POST /api/appointments whose `doctorId` matches
no stored doctor profile still creates the appointment with status
`pending` and returns 201; the notification branch is guarded by
`if (doctor)`, so no notification is written. -/
theorem c10_dangling_doctor_still_created (db : DB) (caller : User)
    (doctorId : Nat) (appointmentDate appointmentTime reason : String)
    (_hrole : caller.role = "patient")
    (hd : appointmentDate ≠ "") (ht : validTime appointmentTime = true)
    (hr : reason ≠ "")
    (hdoc : db.doctorProfiles.find? (fun dp => dp.id == doctorId) = none) :
    createAppointment db caller doctorId appointmentDate appointmentTime
        reason =
      .created { db with
                 appointments := db.appointments ++
                   [{ id := db.appointments.length, patientId := caller.id,
                      doctorId := doctorId,
                      appointmentDate := appointmentDate,
                      appointmentTime := appointmentTime,
                      status := "pending", reason := reason }] } := by
  unfold createAppointment
  rw [if_neg (by simp [hd, ht, hr]), hdoc]

/-- Witness for C10: doctor id 99 matches no profile in `exDB`; the request
still creates a pending appointment and the notification table stays as it
was. -/
theorem c10_dangling_doctor_still_created_witness :
    createAppointment exDB exPatient 99 "2025-02-03" "10:30" "back pain" =
      .created { exDB with
                 appointments := exDB.appointments ++
                   [{ id := exDB.appointments.length,
                      patientId := exPatient.id, doctorId := 99,
                      appointmentDate := "2025-02-03",
                      appointmentTime := "10:30",
                      status := "pending", reason := "back pain" }] } :=
  c10_dangling_doctor_still_created exDB exPatient 99 "2025-02-03" "10:30"
    "back pain" (by rfl) (by decide) (by decide) (by decide) (by rfl)

/-- Claim C2, counterexample: with reviews 4, 5, 5 stored for the doctor,
the document-store `updateRating` stores the exact mean 14/3, which differs
from the 2-decimal rounding 4.67 the claim requires. -/
theorem c2_counterexample_mean_not_rounded :
    (updateRating exRatingDB 20 5).doctorProfiles.map (fun dp => dp.rating) =
      [14 / 3] ∧
    ¬ ((14 : ℚ) / 3 = roundTo2 ((14 : ℚ) / 3)) := by
  constructor
  · simp [updateRating, exRatingDB, exDB, exReviews455, exDoctorProfile]
    norm_num
  · norm_num [roundTo2]

/-- Claim C2, amended: with N ≥ 1 reviews stored, the document-store
`updateRating` sets the doctor's rating to the exact arithmetic mean of the
stored ratings (no rounding), while the relational trigger
`update_doctor_rating` sets it to that mean rounded to 2 decimal places. -/
theorem c2_mean_exact_in_mongo_rounded_in_sql :
    (∀ (db : DB) (dpId : Nat) (newRating : ℚ),
      db.reviews.filter (fun r => r.doctorId == dpId) ≠ [] →
      ∀ dp ∈ (updateRating db dpId newRating).doctorProfiles, dp.id = dpId →
        dp.rating =
          ((db.reviews.filter (fun r => r.doctorId == dpId)).map
              (fun r => (r.rating : ℚ))).sum /
            ((db.reviews.filter (fun r => r.doctorId == dpId)).length : ℚ)) ∧
    (∀ (db : DB) (doctorId : Nat),
      db.reviews.filter (fun r => r.doctorId == doctorId) ≠ [] →
      ∀ dp ∈ (update_doctor_rating db doctorId).doctorProfiles,
        dp.id = doctorId →
        dp.rating = roundTo2
          (((db.reviews.filter (fun r => r.doctorId == doctorId)).map
              (fun r => (r.rating : ℚ))).sum /
            ((db.reviews.filter (fun r => r.doctorId == doctorId)).length :
              ℚ))) := by
  constructor
  · intro db dpId newRating hne dp hdp hid
    have hcond : ((db.reviews.filter (fun r => r.doctorId == dpId)).length
        == 0) = false := by
      simp only [beq_eq_false_iff_ne, ne_eq, List.length_eq_zero]
      exact hne
    simp only [updateRating, hcond, Bool.false_eq_true, if_false,
      List.mem_map] at hdp
    obtain ⟨dp0, hmem, heq⟩ := hdp
    by_cases h0 : dp0.id = dpId
    · rw [← heq]
      simp [h0]
    · rw [← heq] at hid
      simp [h0] at hid
  · intro db doctorId hne dp hdp hid
    unfold update_doctor_rating at hdp
    simp only [List.mem_map] at hdp
    obtain ⟨dp0, hmem, heq⟩ := hdp
    by_cases h0 : dp0.id = doctorId
    · rw [← heq]
      simp [h0]
    · rw [← heq] at hid
      simp [h0] at hid

/-- Witness for C2 on the reviews 4, 5, 5: the document store holds the
exact mean 14/3 and the relational store the rounded 4.67. -/
theorem c2_mean_exact_in_mongo_rounded_in_sql_witness :
    ({ id := 20, userId := 2, rating := 14 / 3, totalConsultations := 0 } :
        DoctorProfile).rating =
      ((exRatingDB.reviews.filter (fun r => r.doctorId == 20)).map
          (fun r => (r.rating : ℚ))).sum /
        ((exRatingDB.reviews.filter (fun r => r.doctorId == 20)).length :
          ℚ) ∧
    ({ id := 20, userId := 2, rating := 467 / 100,
       totalConsultations := 0 } : DoctorProfile).rating =
      roundTo2
        (((exRatingDB.reviews.filter (fun r => r.doctorId == 20)).map
            (fun r => (r.rating : ℚ))).sum /
          ((exRatingDB.reviews.filter (fun r => r.doctorId == 20)).length :
            ℚ)) :=
  ⟨c2_mean_exact_in_mongo_rounded_in_sql.1 exRatingDB 20 5 (by decide)
      { id := 20, userId := 2, rating := 14 / 3, totalConsultations := 0 }
      (by
        simp [updateRating, exRatingDB, exDB, exReviews455, exDoctorProfile]
        norm_num)
      (by rfl),
   c2_mean_exact_in_mongo_rounded_in_sql.2 exRatingDB 20 (by decide)
      { id := 20, userId := 2, rating := 467 / 100,
        totalConsultations := 0 }
      (by
        simp [update_doctor_rating, exRatingDB, exDB, exReviews455,
          exDoctorProfile]
        norm_num [roundTo2])
      (by rfl)⟩

/-- Claim C8: when no review referencing the doctor exists in the store,
`updateRating` short-circuits and stores the freshly submitted rating. -/
theorem c8_zero_reviews_keeps_submitted_value (db : DB) (dpId : Nat)
    (newRating : ℚ)
    (h : db.reviews.filter (fun r => r.doctorId == dpId) = []) :
    ∀ dp ∈ (updateRating db dpId newRating).doctorProfiles, dp.id = dpId →
      dp.rating = newRating := by
  intro dp hdp hid
  unfold updateRating at hdp
  rw [h] at hdp
  simp only [List.mem_map] at hdp
  obtain ⟨dp0, hmem, heq⟩ := hdp
  by_cases h0 : dp0.id = dpId
  · rw [← heq]
    simp [h0]
  · rw [← heq] at hid
    simp [h0] at hid

/-- Witness for C8: `exDB` holds no reviews, so a submitted 9/2 is stored
as-is. -/
theorem c8_zero_reviews_keeps_submitted_value_witness :
    ({ id := 20, userId := 2, rating := 9 / 2, totalConsultations := 0 } :
      DoctorProfile).rating = (9 : ℚ) / 2 :=
  c8_zero_reviews_keeps_submitted_value exDB 20 (9 / 2) (by rfl)
    { id := 20, userId := 2, rating := 9 / 2, totalConsultations := 0 }
    (by simp [updateRating, exDB, exDoctorProfile]) (by rfl)

/-- Helper: a review INSERT that commits appends exactly the new row, and
only when no stored review already carries its `appointment_id`. -/
theorem insertReview_commits_fresh_appointment (db : DB) (callerId : Nat)
    (r : Review) (db' : DB) (h : insertReview db callerId r = some db') :
    db'.reviews = db.reviews ++ [r] ∧
      ∀ r0 ∈ db.reviews, r0.appointmentId ≠ r.appointmentId := by
  unfold insertReview at h
  split at h
  · exact absurd h (by simp)
  · split at h
    · exact absurd h (by simp)
    · split at h
      · exact absurd h (by simp)
      · rename_i hdup hrat hpol
        cases h
        constructor
        · simp [update_doctor_rating]
        · intro r0 hr0
          simp only [List.any_eq_true, not_exists, not_and] at hdup
          intro hcon
          exact hdup r0 hr0 (by simp [hcon])

/-- Helper: every reachable store keeps at most one review per
appointment. -/
theorem reachable_review_unique (db : DB) (h : Reachable db) :
    atMostOneReviewPerAppointment db := by
  induction h with
  | init users dps appts notifs =>
    exact List.Pairwise.nil
  | review db0 db' callerId r hr heq ih =>
    obtain ⟨hrev, hnodup⟩ :=
      insertReview_commits_fresh_appointment db0 callerId r db' heq
    unfold atMostOneReviewPerAppointment at ih ⊢
    rw [hrev, List.pairwise_append]
    refine ⟨ih, List.pairwise_singleton _ _, ?_⟩
    intro a ha b hb
    simp only [List.mem_singleton] at hb
    subst hb
    exact hnodup a ha
  | other db0 users dps appts notifs hr ih =>
    exact ih

/-- Helper: a review INSERT whose appointment is not `completed` is rejected
by the RLS insert policy. -/
theorem insertReview_rejects_uncompleted (db : DB) (callerId : Nat)
    (r : Review)
    (h : ∀ a ∈ db.appointments, a.id = r.appointmentId →
      a.status ≠ "completed") :
    insertReview db callerId r = none := by
  unfold insertReview
  split
  · rfl
  · split
    · rfl
    · rw [if_pos]
      intro hcon
      rw [Bool.and_eq_true] at hcon
      obtain ⟨-, hany⟩ := hcon
      rw [List.any_eq_true] at hany
      obtain ⟨a, ha, hprop⟩ := hany
      simp only [Bool.and_eq_true, beq_iff_eq] at hprop
      exact h a ha hprop.1.1 hprop.2

/-- Claim C6: every reachable relational store holds at most one review per
appointment (the UNIQUE constraint), and an INSERT for an appointment that
is not `completed` is rejected by the RLS policy. -/
theorem c6_one_review_per_completed_appointment :
    (∀ db, Reachable db → atMostOneReviewPerAppointment db) ∧
    (∀ (db : DB) (callerId : Nat) (r : Review),
      (∀ a ∈ db.appointments, a.id = r.appointmentId →
        a.status ≠ "completed") →
      insertReview db callerId r = none) :=
  ⟨reachable_review_unique, insertReview_rejects_uncompleted⟩

/-- Witness for C6: the initial example store is reachable and satisfies the
invariant, and a review aimed at the pending appointment 10 is rejected. -/
theorem c6_one_review_per_completed_appointment_witness :
    atMostOneReviewPerAppointment exDB ∧
    insertReview exDB 1 exReviewForPending = none :=
  ⟨c6_one_review_per_completed_appointment.1 exDB
      (Reachable.init [exPatient, exDoctorUser] [exDoctorProfile]
        [exPendingAppt] []),
   c6_one_review_per_completed_appointment.2 exDB 1 exReviewForPending
      (by decide)⟩

end MediReach
